import Mathlib

/-!
Shallow embedding of the content-filter classification workflow of an
OpenAI HTTP client library, together with proofs of the specification's
claims about it.

The embedding follows `src/content_filter.rs`, `src/endpoints/create_completion.rs`
and `src/lib.rs`:
  * `f32` values (log-probabilities, temperature, …) are modelled as `ℚ`;
  * `HashMap<String, f32>` is modelled as an association list
    `List (String × ℚ)` queried with `List.lookup`;
  * `u16` fields are modelled as `Nat` (the setters never do arithmetic on
    them, so no wrap-around can occur);
  * `Vec::pop`, which removes and returns the *last* element, is modelled by
    `vecPop`;
  * `Result<T, E>` is `Except E T`, `Option<T>` is `Option T`.
-/

namespace OpenAI

/-- `Vec::pop`: removes and returns the last element of a vector, together
with the remaining vector; `none` on an empty vector. -/
def vecPop {α : Type} : List α → Option (α × List α)
  | [] => none
  | x :: xs =>
    match vecPop xs with
    | none => some (x, [])
    | some (last, rest) => some (last, x :: rest)

/-- `LogProbs` from `create_completion.rs`: per-token log-probability data of
one choice.  Each element of `top_logprobs` is a `HashMap<String, f32>`,
modelled as an association list. -/
structure LogProbs where
  tokens : List String
  token_logprobs : List ℚ
  top_logprobs : List (List (String × ℚ))
  text_offset : List Nat

/-- `Choice` from `create_completion.rs`: one completion. -/
structure Choice where
  text : String
  index : Nat
  log_probs : Option (List LogProbs)
  finish_reason : String

/-- `CreateCompletionResponse` from `create_completion.rs`. -/
structure CreateCompletionResponse where
  id : String
  object : String
  created : Nat
  model : String
  choices : List Choice

/-- `FilterLabel` from `content_filter.rs`. -/
inductive FilterLabel where
  | Safe
  | Sensitive
  | Unsafe
deriving DecidableEq, Repr

/-- `ClassificationError` from `content_filter.rs`. -/
inductive ClassificationError where
  | NoLabelFound
  | TooManyLabels
  | UnexpectedLabel
  | MissingLogProbs
deriving DecidableEq, Repr

/-- `TOXIC_THRESHOLD` from `content_filter.rs` (the `f32` literal `-0.355`,
taken as the exact rational). -/
def TOXIC_THRESHOLD : ℚ := -355/1000

/-- `determine_filter_label` from `content_filter.rs`.  `resp.choices.pop()`
removes the last choice; the remaining choices must then be empty. -/
def determine_filter_label (resp : CreateCompletionResponse) :
    Except ClassificationError FilterLabel :=
  match vecPop resp.choices with
  | none => .error .NoLabelFound
  | some (label_choice, remaining) =>
    if ! remaining.isEmpty then .error .TooManyLabels
    else if label_choice.text = "0" then .ok .Safe
    else if label_choice.text = "1" then .ok .Sensitive
    else if label_choice.text = "2" then
      match label_choice.log_probs with
      | none => .error .MissingLogProbs
      | some lps =>
        match lps.head? with
        | none => .error .MissingLogProbs
        | some lp =>
          match lp.top_logprobs.head? with
          | none => .error .MissingLogProbs
          | some top_lp =>
            match top_lp.lookup "2" with
            | none => .error .MissingLogProbs
            | some lp2 =>
              if lp2 ≥ TOXIC_THRESHOLD then .ok .Unsafe
              else
                match top_lp.lookup "0", top_lp.lookup "1" with
                | some safe, some sensitive =>
                    if safe ≥ sensitive then .ok .Safe else .ok .Sensitive
                | some _, none => .ok .Safe
                | none, some _ => .ok .Sensitive
                | none, none => .ok .Unsafe
    else .error .UnexpectedLabel

/-- `NullableOneOrMany<T>` from `create_completion.rs`: an empty, single or
multiple value (serialized as nothing, the value, or the list). -/
inductive NullableOneOrMany (T : Type) where
  | none
  | one (one : T)
  | many (many : List T)
deriving DecidableEq, Repr

abbrev Prompt := NullableOneOrMany String
abbrev Stop := NullableOneOrMany String

/-- Whether a `NullableOneOrMany` is the `None` variant (the case the
`Serialize` impl for `CreateCompletion` skips the `prompt` entry on). -/
def NullableOneOrMany.isNone {T : Type} : NullableOneOrMany T → Bool
  | .none => true
  | .one _ => false
  | .many _ => false

/-- `CreateCompletion` from `create_completion.rs`. -/
structure CreateCompletion where
  engine_id : String
  prompt : Prompt
  suffix : Option String
  max_tokens : Option Nat
  temperature : Option ℚ
  top_p : Option ℚ
  n : Option Nat
  log_probs : Option Nat
  echo : Bool
  stop : Stop
  presence_penalty : Option ℚ
  best_of : Option Nat
  logit : Option (List (String × ℚ))
deriving DecidableEq, Repr

/-- The sequence of keys written by `impl Serialize for CreateCompletion`
(each `serialize_entry` call, in source order): `prompt` unless the prompt is
the `None` variant, each optional field when set, `echo` always; the `stop`
and `engine_id` fields are never written. -/
def serialize_fields (cc : CreateCompletion) : List String :=
  (if cc.prompt.isNone then [] else ["prompt"]) ++
  (if cc.suffix.isSome then ["suffix"] else []) ++
  (if cc.max_tokens.isSome then ["max_tokens"] else []) ++
  (if cc.temperature.isSome then ["temperature"] else []) ++
  (if cc.top_p.isSome then ["top_p"] else []) ++
  (if cc.n.isSome then ["n"] else []) ++
  (if cc.log_probs.isSome then ["logprobs"] else []) ++
  ["echo"] ++
  (if cc.presence_penalty.isSome then ["presence_penalty"] else []) ++
  (if cc.best_of.isSome then ["best_of"] else []) ++
  (if cc.logit.isSome then ["logit"] else [])

/-- `CreateCompletionBuilder` from `create_completion.rs`: a
`Result<CreateCompletion, String>` that latches the first setter error. -/
structure CreateCompletionBuilder where
  create_completion : Except String CreateCompletion

/-- `CreateCompletionBuilder::new`. -/
def CreateCompletionBuilder.new (engine_id : String) : CreateCompletionBuilder :=
  ⟨.ok { engine_id := engine_id
         prompt := NullableOneOrMany.none
         suffix := none
         max_tokens := none
         temperature := none
         top_p := none
         n := none
         log_probs := none
         echo := false
         stop := NullableOneOrMany.none
         presence_penalty := none
         best_of := none
         logit := none }⟩

/-- `CreateCompletionBuilder::prompt`. -/
def CreateCompletionBuilder.prompt (b : CreateCompletionBuilder) (p : Prompt) :
    CreateCompletionBuilder :=
  match b.create_completion with
  | .ok cc => ⟨.ok { cc with prompt := p }⟩
  | .error e => ⟨.error e⟩

/-- `CreateCompletionBuilder::suffix`. -/
def CreateCompletionBuilder.suffix (b : CreateCompletionBuilder) (s : String) :
    CreateCompletionBuilder :=
  match b.create_completion with
  | .ok cc => ⟨.ok { cc with suffix := some s }⟩
  | .error e => ⟨.error e⟩

/-- `CreateCompletionBuilder::max_tokens`: rejects values above 4096. -/
def CreateCompletionBuilder.max_tokens (b : CreateCompletionBuilder) (mt : Nat) :
    CreateCompletionBuilder :=
  match b.create_completion with
  | .ok cc =>
    if mt > 4096 then ⟨.error "Max tokens cannot exceed 4096 on any model"⟩
    else ⟨.ok { cc with max_tokens := some mt }⟩
  | .error e => ⟨.error e⟩

/-- `CreateCompletionBuilder::temperature`: rejects values outside [0, 1]. -/
def CreateCompletionBuilder.temperature (b : CreateCompletionBuilder) (t : ℚ) :
    CreateCompletionBuilder :=
  match b.create_completion with
  | .ok cc =>
    if ¬ (0 ≤ t ∧ t ≤ 1) then ⟨.error "Temperature must be in range [0, 1.0]"⟩
    else ⟨.ok { cc with temperature := some t }⟩
  | .error e => ⟨.error e⟩

/-- `CreateCompletionBuilder::top_p`: rejects values outside [0, 1]. -/
def CreateCompletionBuilder.top_p (b : CreateCompletionBuilder) (tp : ℚ) :
    CreateCompletionBuilder :=
  match b.create_completion with
  | .ok cc =>
    if ¬ (0 ≤ tp ∧ tp ≤ 1) then ⟨.error "top_p must be in range [0, 1.0]"⟩
    else ⟨.ok { cc with top_p := some tp }⟩
  | .error e => ⟨.error e⟩

/-- `CreateCompletionBuilder::n`. -/
def CreateCompletionBuilder.n (b : CreateCompletionBuilder) (v : Nat) :
    CreateCompletionBuilder :=
  match b.create_completion with
  | .ok cc => ⟨.ok { cc with n := some v }⟩
  | .error e => ⟨.error e⟩

/-- `CreateCompletionBuilder::log_probs`. -/
def CreateCompletionBuilder.log_probs (b : CreateCompletionBuilder) (v : Nat) :
    CreateCompletionBuilder :=
  match b.create_completion with
  | .ok cc => ⟨.ok { cc with log_probs := some v }⟩
  | .error e => ⟨.error e⟩

/-- `CreateCompletionBuilder::echo`. -/
def CreateCompletionBuilder.echo (b : CreateCompletionBuilder) (e2 : Bool) :
    CreateCompletionBuilder :=
  match b.create_completion with
  | .ok cc => ⟨.ok { cc with echo := e2 }⟩
  | .error e => ⟨.error e⟩

/-- `CreateCompletionBuilder::stop`. -/
def CreateCompletionBuilder.stop (b : CreateCompletionBuilder) (s : Stop) :
    CreateCompletionBuilder :=
  match b.create_completion with
  | .ok cc => ⟨.ok { cc with stop := s }⟩
  | .error e => ⟨.error e⟩

/-- `CreateCompletionBuilder::presence_penalty`: rejects values outside
[-2, 2] (with the source's copy-pasted temperature error message). -/
def CreateCompletionBuilder.presence_penalty (b : CreateCompletionBuilder) (pp : ℚ) :
    CreateCompletionBuilder :=
  match b.create_completion with
  | .ok cc =>
    if ¬ (-2 ≤ pp ∧ pp ≤ 2) then ⟨.error "Temperature must be in range [0, 1.0]"⟩
    else ⟨.ok { cc with presence_penalty := some pp }⟩
  | .error e => ⟨.error e⟩

/-- `CreateCompletionBuilder::best_of`. -/
def CreateCompletionBuilder.best_of (b : CreateCompletionBuilder) (v : Nat) :
    CreateCompletionBuilder :=
  match b.create_completion with
  | .ok cc => ⟨.ok { cc with best_of := some v }⟩
  | .error e => ⟨.error e⟩

/-- `CreateCompletionBuilder::logit`. -/
def CreateCompletionBuilder.logit (b : CreateCompletionBuilder) (l : List (String × ℚ)) :
    CreateCompletionBuilder :=
  match b.create_completion with
  | .ok cc => ⟨.ok { cc with logit := some l }⟩
  | .error e => ⟨.error e⟩

/-- `CreateCompletionBuilder::build`: propagates a latched error, then rejects
the configuration where both `n` and `best_of` are set with `n <= best_of`. -/
def CreateCompletionBuilder.build (b : CreateCompletionBuilder) :
    Except String CreateCompletion :=
  match b.create_completion with
  | .error e => .error e
  | .ok cc =>
    match cc.n, cc.best_of with
    | some n, some best_of =>
      if n ≤ best_of then .error "If both are specified, best_of must be greater than n"
      else .ok cc
    | _, _ => .ok cc

/-- One call on `CreateCompletionBuilder`, for stating properties of setter
sequences. -/
inductive BuilderStep where
  | prompt (p : Prompt)
  | suffix (s : String)
  | max_tokens (mt : Nat)
  | temperature (t : ℚ)
  | top_p (tp : ℚ)
  | n (v : Nat)
  | log_probs (v : Nat)
  | echo (e : Bool)
  | stop (s : Stop)
  | presence_penalty (pp : ℚ)
  | best_of (v : Nat)
  | logit (l : List (String × ℚ))

/-- Apply one builder call. -/
def applyStep (b : CreateCompletionBuilder) : BuilderStep → CreateCompletionBuilder
  | .prompt p => b.prompt p
  | .suffix s => b.suffix s
  | .max_tokens mt => b.max_tokens mt
  | .temperature t => b.temperature t
  | .top_p tp => b.top_p tp
  | .n v => b.n v
  | .log_probs v => b.log_probs v
  | .echo e => b.echo e
  | .stop s => b.stop s
  | .presence_penalty pp => b.presence_penalty pp
  | .best_of v => b.best_of v
  | .logit l => b.logit l

/-- `create_content_filter_request` from `content_filter.rs`. -/
def create_content_filter_request (text : String) : Except String CreateCompletion :=
  (((((CreateCompletionBuilder.new "content-filter-alpha").max_tokens 1).temperature
      0).top_p 0).log_probs 10).prompt
    (NullableOneOrMany.one ("<|endoftext|>" ++ text ++ "\n--\nLabel:")) |>.build

/-- `Error` from `lib.rs`: the transport failure taxonomy. -/
inductive Error where
  | HttpError (err : String)
  | ClientError (err : String) (status : Nat)
  | DeserializeError (err : String)
deriving DecidableEq, Repr

/-- The tail of `filter_content`:
`determine_filter_label(resp).map_err(|_| "Error classifying text. ...")`. -/
def filter_label_result (resp : CreateCompletionResponse) : Except String FilterLabel :=
  match determine_filter_label resp with
  | .ok l => .ok l
  | .error _ =>
    .error "Error classifying text. You should treat this like an Unsafe classification"

/-- `filter_content` from `content_filter.rs`, modelled over a transport
oracle: `transport i` is what the `(i+1)`-th `OpenAIClient::send` call of this
invocation would return.  `render` stands for the `e.to_string()` rendering of
`Error` used in the retry-failure path (the repository's sources contain no
`Display` impl for `Error`; no claim depends on the produced text).  The
second component counts the `send` calls made. -/
def filter_content (text : String) (render : Error → String)
    (transport : Nat → Except Error CreateCompletionResponse) :
    Except String FilterLabel × Nat :=
  match create_content_filter_request text with
  | .error e => (.error e, 0)
  | .ok _req =>
    match transport 0 with
    | .ok r => (filter_label_result r, 1)
    | .error (.HttpError _) =>
      match transport 1 with
      | .ok r => (filter_label_result r, 2)
      | .error e => (.error (render e), 2)
    | .error (.ClientError err status) =>
      (.error ("Error making content filter request: status " ++ toString status
        ++ " | error " ++ err), 1)
    | .error (.DeserializeError err) =>
      (.error ("Error deserializing content filter response: " ++ err), 1)

/-! Helper lemmas about `vecPop`. -/

theorem vecPop_cons_eq {α : Type} (x : α) (xs : List α) :
    vecPop (x :: xs) = match vecPop xs with
      | none => some (x, [])
      | some (l, r) => some (l, x :: r) := rfl

theorem vecPop_cons_isSome {α : Type} (x : α) (xs : List α) :
    ∃ last rest, vecPop (x :: xs) = some (last, rest) := by
  induction xs generalizing x with
  | nil => exact ⟨x, [], rfl⟩
  | cons y ys ih =>
    obtain ⟨l, r, h⟩ := ih y
    exact ⟨l, x :: r, by rw [vecPop_cons_eq, h]⟩

theorem vecPop_cons_cons {α : Type} (a b : α) (bs : List α) :
    ∃ last rest, vecPop (a :: b :: bs) = some (last, a :: rest) := by
  obtain ⟨l, r, h⟩ := vecPop_cons_isSome b bs
  exact ⟨l, r, by rw [vecPop_cons_eq, h]⟩

/-- Unfolding of `determine_filter_label` on a single-choice response whose
text is `"2"`: only the log-probability data remains to be inspected. -/
theorem determine_two_eq (id obj model fr : String) (created idx : Nat)
    (olp : Option (List LogProbs)) :
    determine_filter_label ⟨id, obj, created, model, [⟨"2", idx, olp, fr⟩]⟩
      = match olp with
        | none => .error .MissingLogProbs
        | some lps =>
          match lps.head? with
          | none => .error .MissingLogProbs
          | some lp =>
            match lp.top_logprobs.head? with
            | none => .error .MissingLogProbs
            | some top_lp =>
              match top_lp.lookup "2" with
              | none => .error .MissingLogProbs
              | some lp2 =>
                if lp2 ≥ TOXIC_THRESHOLD then .ok .Unsafe
                else
                  match top_lp.lookup "0", top_lp.lookup "1" with
                  | some safe, some sensitive =>
                      if safe ≥ sensitive then .ok .Safe else .ok .Sensitive
                  | some _, none => .ok .Safe
                  | none, some _ => .ok .Sensitive
                  | none, none => .ok .Unsafe := rfl

/-- C1: on a response with exactly one choice whose text is `"2"`, when the
log-probability data is present, its first element's first top-candidate map
contains key `"2"` with a value ≥ `TOXIC_THRESHOLD` (-0.355),
`determine_filter_label` returns `Ok(Unsafe)`, regardless of which other
entries (in particular `"0"` or `"1"`) the map holds. -/
theorem determine_two_threshold_unsafe
    (id obj model fr : String) (created idx : Nat)
    (lp : LogProbs) (lps2 : List LogProbs) (m : List (String × ℚ)) (v : ℚ)
    (hm : lp.top_logprobs.head? = some m)
    (hv : m.lookup "2" = some v) (ht : v ≥ TOXIC_THRESHOLD) :
    determine_filter_label ⟨id, obj, created, model, [⟨"2", idx, some (lp :: lps2), fr⟩]⟩
      = .ok .Unsafe := by
  simp [determine_filter_label, vecPop, hm, hv, ht]

/-- C1 witness: the spec's example `{"2": -0.1}`, with -0.1 ≥ -0.355. -/
theorem determine_two_threshold_unsafe_witness :
    determine_filter_label ⟨"i", "o", 0, "m",
      [⟨"2", 0, some [⟨["2"], [-1/10], [[("2", -1/10)]], [0]⟩], "stop"⟩]⟩
      = .ok .Unsafe :=
  determine_two_threshold_unsafe "i" "o" "m" "stop" 0 0
    ⟨["2"], [-1/10], [[("2", -1/10)]], [0]⟩ [] [("2", -1/10)] (-1/10)
    rfl rfl (by norm_num [TOXIC_THRESHOLD])

/-- C2: on a response with exactly one choice whose text is `"2"`, when the
first top-candidate map's entry for `"2"` is strictly below the threshold,
the label is decided from the `"0"` and `"1"` entries: both present → Safe
iff the `"0"` value ≥ the `"1"` value, else Sensitive; only `"0"` → Safe;
only `"1"` → Sensitive; neither → Unsafe. -/
theorem determine_two_below_threshold
    (id obj model fr : String) (created idx : Nat)
    (lp : LogProbs) (lps2 : List LogProbs) (m : List (String × ℚ)) (v : ℚ)
    (hm : lp.top_logprobs.head? = some m)
    (hv : m.lookup "2" = some v) (ht : v < TOXIC_THRESHOLD) :
    (∀ s0 s1, m.lookup "0" = some s0 → m.lookup "1" = some s1 →
      determine_filter_label ⟨id, obj, created, model, [⟨"2", idx, some (lp :: lps2), fr⟩]⟩
        = .ok (if s0 ≥ s1 then .Safe else .Sensitive))
    ∧ (∀ s0, m.lookup "0" = some s0 → m.lookup "1" = none →
      determine_filter_label ⟨id, obj, created, model, [⟨"2", idx, some (lp :: lps2), fr⟩]⟩
        = .ok .Safe)
    ∧ (∀ s1, m.lookup "0" = none → m.lookup "1" = some s1 →
      determine_filter_label ⟨id, obj, created, model, [⟨"2", idx, some (lp :: lps2), fr⟩]⟩
        = .ok .Sensitive)
    ∧ (m.lookup "0" = none → m.lookup "1" = none →
      determine_filter_label ⟨id, obj, created, model, [⟨"2", idx, some (lp :: lps2), fr⟩]⟩
        = .ok .Unsafe) := by
  have hnt : ¬ (v ≥ TOXIC_THRESHOLD) := not_le.mpr ht
  refine ⟨?_, ?_, ?_, ?_⟩
  · intro s0 s1 h0 h1
    by_cases hc : s0 ≥ s1 <;>
      simp [determine_filter_label, vecPop, hm, hv, hnt, h0, h1, hc]
  · intro s0 h0 h1
    simp [determine_filter_label, vecPop, hm, hv, hnt, h0, h1]
  · intro s1 h0 h1
    simp [determine_filter_label, vecPop, hm, hv, hnt, h0, h1]
  · intro h0 h1
    simp [determine_filter_label, vecPop, hm, hv, hnt, h0, h1]

/-- C2 witness: the spec's example `{"2": -5.0, "1": -0.3}` (no `"0"` entry)
yields Sensitive. -/
theorem determine_two_below_threshold_witness :
    determine_filter_label ⟨"i", "o", 0, "m",
      [⟨"2", 0, some [⟨["2"], [-5], [[("2", -5), ("1", -3/10)]], [0]⟩], "stop"⟩]⟩
      = .ok .Sensitive :=
  (determine_two_below_threshold "i" "o" "m" "stop" 0 0
    ⟨["2"], [-5], [[("2", -5), ("1", -3/10)]], [0]⟩ [] [("2", -5), ("1", -3/10)] (-5)
    rfl rfl (by norm_num [TOXIC_THRESHOLD])).2.2.1 (-3/10) rfl rfl

/-- C3: on a response with exactly one choice, text `"0"` yields `Ok(Safe)` and
text `"1"` yields `Ok(Sensitive)`, for every value of the `log_probs` field
(including `none`): the log-probability data is never consulted. -/
theorem determine_zero_one
    (id obj model fr : String) (created idx : Nat) (olp : Option (List LogProbs)) :
    determine_filter_label ⟨id, obj, created, model, [⟨"0", idx, olp, fr⟩]⟩ = .ok .Safe
    ∧ determine_filter_label ⟨id, obj, created, model, [⟨"1", idx, olp, fr⟩]⟩ = .ok .Sensitive :=
  ⟨rfl, rfl⟩

/-- C4: `determine_filter_label` fails with `NoLabelFound` on zero choices,
`TooManyLabels` on two or more choices, and `UnexpectedLabel` on a single
choice whose text is none of `"0"`, `"1"`, `"2"`. -/
theorem determine_errors :
    (∀ resp : CreateCompletionResponse, resp.choices = [] →
        determine_filter_label resp = .error .NoLabelFound)
    ∧ (∀ resp : CreateCompletionResponse, 2 ≤ resp.choices.length →
        determine_filter_label resp = .error .TooManyLabels)
    ∧ (∀ (id obj model fr t : String) (created idx : Nat) (olp : Option (List LogProbs)),
        t ≠ "0" → t ≠ "1" → t ≠ "2" →
        determine_filter_label ⟨id, obj, created, model, [⟨t, idx, olp, fr⟩]⟩
          = .error .UnexpectedLabel) := by
  refine ⟨?_, ?_, ?_⟩
  · intro resp h
    simp [determine_filter_label, h, vecPop]
  · intro resp h
    rcases hc : resp.choices with _ | ⟨a, _ | ⟨b, bs⟩⟩
    · rw [hc] at h; simp at h
    · rw [hc] at h; simp at h
    · obtain ⟨l, r, hp⟩ := vecPop_cons_cons a b bs
      simp [determine_filter_label, hc, hp]
  · intro id obj model fr t created idx olp h0 h1 h2
    simp [determine_filter_label, vecPop, h0, h1, h2]

/-- C5: on a response with exactly one choice whose text is `"2"`,
`determine_filter_label` fails with `MissingLogProbs` if and only if the
log-probability data is absent, or it has no first element, or that element's
top-candidate list has no first map, or the first map has no `"2"` entry. -/
theorem determine_two_missing_logprobs_iff
    (id obj model fr : String) (created idx : Nat) (olp : Option (List LogProbs)) :
    determine_filter_label ⟨id, obj, created, model, [⟨"2", idx, olp, fr⟩]⟩
        = .error .MissingLogProbs
    ↔ (olp = none
       ∨ (∃ lps, olp = some lps ∧ lps.head? = none)
       ∨ (∃ lps lp, olp = some lps ∧ lps.head? = some lp ∧ lp.top_logprobs.head? = none)
       ∨ (∃ lps lp m, olp = some lps ∧ lps.head? = some lp ∧ lp.top_logprobs.head? = some m
            ∧ m.lookup "2" = none)) := by
  rcases olp with _ | lps
  · exact iff_of_true rfl (Or.inl rfl)
  · rcases lps with _ | ⟨lp, rest⟩
    · exact iff_of_true rfl (Or.inr (Or.inl ⟨[], rfl, rfl⟩))
    · rcases hm : lp.top_logprobs.head? with _ | m
      · refine iff_of_true ?_ (Or.inr (Or.inr (Or.inl ⟨lp :: rest, lp, rfl, rfl, hm⟩)))
        rw [determine_two_eq]
        simp only [List.head?_cons, hm]
      · rcases hk : List.lookup "2" m with _ | v
        · refine iff_of_true ?_
            (Or.inr (Or.inr (Or.inr ⟨lp :: rest, lp, m, rfl, rfl, hm, hk⟩)))
          rw [determine_two_eq]
          simp only [List.head?_cons, hm, hk]
        · refine iff_of_false ?_ ?_
          · rw [determine_two_eq]
            simp only [List.head?_cons, hm, hk]
            intro h
            split at h
            · simp at h
            · split at h <;> simp [ite_eq_iff] at h
          · rintro (h | ⟨lps, hl, hh⟩ | ⟨lps, lp', hl, hh, hT⟩ | ⟨lps, lp', m', hl, hh, hT, hK⟩)
            · exact Option.noConfusion h
            · rw [Option.some_inj] at hl
              subst hl
              simp at hh
            · rw [Option.some_inj] at hl
              subst hl
              rw [List.head?_cons, Option.some_inj] at hh
              subst hh
              rw [hm] at hT
              exact Option.noConfusion hT
            · rw [Option.some_inj] at hl
              subst hl
              rw [List.head?_cons, Option.some_inj] at hh
              subst hh
              rw [hm, Option.some_inj] at hT
              subst hT
              rw [hk] at hK
              exact Option.noConfusion hK

/-- C7: `create_content_filter_request` always succeeds, producing exactly the
request prescribed for the content-filter endpoint: prompt
`"<|endoftext|>" ++ text ++ "\n--\nLabel:"`, `max_tokens = 1`,
`temperature = 0`, `top_p = 0`, `log_probs = 10`, everything else unset. -/
theorem create_content_filter_request_eq (text : String) :
    create_content_filter_request text =
      .ok { engine_id := "content-filter-alpha"
            prompt := NullableOneOrMany.one ("<|endoftext|>" ++ text ++ "\n--\nLabel:")
            suffix := none
            max_tokens := some 1
            temperature := some 0
            top_p := some 0
            n := none
            log_probs := some 10
            echo := false
            stop := NullableOneOrMany.none
            presence_penalty := none
            best_of := none
            logit := none } := rfl

/-! Membership in a conditionally-emitted serializer entry. -/

theorem mem_guard {c : Bool} (a b : String) :
    (a ∈ if c then [b] else []) ↔ (a = b ∧ c = true) := by
  cases c <;> simp

theorem mem_guard_not {c : Bool} (a b : String) :
    (a ∈ if c then [] else [b]) ↔ (a = b ∧ c = false) := by
  cases c <;> simp

/-- C8: the serialized form of a `CreateCompletion` always contains the key
`"echo"`; it contains `"prompt"` iff the prompt is not the `None` variant;
each of the optional fields appears iff it is set (`log_probs` under the wire
key `"logprobs"`); and no other key — in particular never `"stop"` — appears. -/
theorem serialize_fields_spec (cc : CreateCompletion) :
    "echo" ∈ serialize_fields cc
    ∧ ("prompt" ∈ serialize_fields cc ↔ cc.prompt.isNone = false)
    ∧ ("suffix" ∈ serialize_fields cc ↔ cc.suffix.isSome = true)
    ∧ ("max_tokens" ∈ serialize_fields cc ↔ cc.max_tokens.isSome = true)
    ∧ ("temperature" ∈ serialize_fields cc ↔ cc.temperature.isSome = true)
    ∧ ("top_p" ∈ serialize_fields cc ↔ cc.top_p.isSome = true)
    ∧ ("n" ∈ serialize_fields cc ↔ cc.n.isSome = true)
    ∧ ("logprobs" ∈ serialize_fields cc ↔ cc.log_probs.isSome = true)
    ∧ ("presence_penalty" ∈ serialize_fields cc ↔ cc.presence_penalty.isSome = true)
    ∧ ("best_of" ∈ serialize_fields cc ↔ cc.best_of.isSome = true)
    ∧ ("logit" ∈ serialize_fields cc ↔ cc.logit.isSome = true)
    ∧ "stop" ∉ serialize_fields cc
    ∧ (∀ k ∈ serialize_fields cc, k ∈ ["prompt", "suffix", "max_tokens", "temperature",
        "top_p", "n", "logprobs", "echo", "presence_penalty", "best_of", "logit"]) := by
  refine ⟨?_, ?_, ?_, ?_, ?_, ?_, ?_, ?_, ?_, ?_, ?_, ?_, ?_⟩
  case _ => simp [serialize_fields, List.mem_append, mem_guard, mem_guard_not]
  case _ => simp [serialize_fields, List.mem_append, mem_guard, mem_guard_not]
  case _ => simp [serialize_fields, List.mem_append, mem_guard, mem_guard_not]
  case _ => simp [serialize_fields, List.mem_append, mem_guard, mem_guard_not]
  case _ => simp [serialize_fields, List.mem_append, mem_guard, mem_guard_not]
  case _ => simp [serialize_fields, List.mem_append, mem_guard, mem_guard_not]
  case _ => simp [serialize_fields, List.mem_append, mem_guard, mem_guard_not]
  case _ => simp [serialize_fields, List.mem_append, mem_guard, mem_guard_not]
  case _ => simp [serialize_fields, List.mem_append, mem_guard, mem_guard_not]
  case _ => simp [serialize_fields, List.mem_append, mem_guard, mem_guard_not]
  case _ => simp [serialize_fields, List.mem_append, mem_guard, mem_guard_not]
  case _ => simp [serialize_fields, List.mem_append, mem_guard, mem_guard_not]
  case _ =>
    intro k hk
    simp only [serialize_fields, List.mem_append, mem_guard, mem_guard_not,
      List.mem_singleton] at hk
    rcases hk with ((((((((((h | h) | h) | h) | h) | h) | h) | h) | h) | h) | h) <;>
      simp_all

/-- C9: on an error-free builder state with both `n` and `best_of` set,
`build` errors exactly when `n ≤ best_of` and succeeds exactly when
`n > best_of` — so the configuration its own documentation calls valid
(`best_of` strictly greater than `n`) is the rejected one. -/
theorem build_n_best_of (cc : CreateCompletion) (vn vb : Nat)
    (hn : cc.n = some vn) (hb : cc.best_of = some vb) :
    (CreateCompletionBuilder.build ⟨.ok cc⟩
        = .error "If both are specified, best_of must be greater than n" ↔ vn ≤ vb)
    ∧ (CreateCompletionBuilder.build ⟨.ok cc⟩ = .ok cc ↔ vb < vn) := by
  have heq : CreateCompletionBuilder.build ⟨.ok cc⟩
      = if vn ≤ vb then .error "If both are specified, best_of must be greater than n"
        else .ok cc := by
    simp only [CreateCompletionBuilder.build, hn, hb]
  by_cases h : vn ≤ vb
  · rw [heq, if_pos h]
    exact ⟨iff_of_true rfl h, iff_of_false (by simp) (not_lt.mpr h)⟩
  · rw [heq, if_neg h]
    exact ⟨iff_of_false (by simp) h, iff_of_true rfl (not_le.mp h)⟩

/-- C9 witness: `n = 1`, `best_of = 2` (the documented-as-valid shape) is
rejected. -/
theorem build_n_best_of_witness :
    CreateCompletionBuilder.build ⟨.ok
      { engine_id := "e", prompt := NullableOneOrMany.none, suffix := none,
        max_tokens := none, temperature := none, top_p := none, n := some 1,
        log_probs := none, echo := false, stop := NullableOneOrMany.none,
        presence_penalty := none, best_of := some 2, logit := none }⟩
      = .error "If both are specified, best_of must be greater than n" :=
  (build_n_best_of _ 1 2 rfl rfl).1.mpr (by norm_num)

/-- C10: the builder latches its first validation error.  The four validating
setters put an error-free builder into the error state exactly under their
documented conditions; every setter leaves an error state untouched; hence any
sequence of further calls keeps the first error, and `build` returns it. -/
theorem builder_error_latches :
    (∀ (cc : CreateCompletion) (mt : Nat), 4096 < mt →
      CreateCompletionBuilder.max_tokens ⟨.ok cc⟩ mt
        = ⟨.error "Max tokens cannot exceed 4096 on any model"⟩)
    ∧ (∀ (cc : CreateCompletion) (t : ℚ), ¬ (0 ≤ t ∧ t ≤ 1) →
      CreateCompletionBuilder.temperature ⟨.ok cc⟩ t
        = ⟨.error "Temperature must be in range [0, 1.0]"⟩)
    ∧ (∀ (cc : CreateCompletion) (tp : ℚ), ¬ (0 ≤ tp ∧ tp ≤ 1) →
      CreateCompletionBuilder.top_p ⟨.ok cc⟩ tp
        = ⟨.error "top_p must be in range [0, 1.0]"⟩)
    ∧ (∀ (cc : CreateCompletion) (pp : ℚ), ¬ (-2 ≤ pp ∧ pp ≤ 2) →
      CreateCompletionBuilder.presence_penalty ⟨.ok cc⟩ pp
        = ⟨.error "Temperature must be in range [0, 1.0]"⟩)
    ∧ (∀ (e : String) (s : BuilderStep), applyStep ⟨.error e⟩ s = ⟨.error e⟩)
    ∧ (∀ (e : String) (steps : List BuilderStep),
        steps.foldl applyStep ⟨.error e⟩ = ⟨.error e⟩)
    ∧ (∀ (e : String) (steps : List BuilderStep),
        (steps.foldl applyStep ⟨.error e⟩).build = .error e) := by
  have h5 : ∀ (e : String) (s : BuilderStep), applyStep ⟨.error e⟩ s = ⟨.error e⟩ := by
    intro e s
    cases s <;> rfl
  have h6 : ∀ (e : String) (steps : List BuilderStep),
      steps.foldl applyStep ⟨.error e⟩ = ⟨.error e⟩ := by
    intro e steps
    induction steps with
    | nil => rfl
    | cons s ss ih => rw [List.foldl_cons, h5, ih]
  refine ⟨?_, ?_, ?_, ?_, h5, h6, ?_⟩
  · intro cc mt h
    simp [CreateCompletionBuilder.max_tokens, h]
  · intro cc t h
    simp only [CreateCompletionBuilder.temperature, if_pos h]
  · intro cc tp h
    simp only [CreateCompletionBuilder.top_p, if_pos h]
  · intro cc pp h
    simp only [CreateCompletionBuilder.presence_penalty, if_pos h]
  · intro e steps
    rw [h6]
    rfl

/-- The content-filter request construction never hits the builder's error
case (helper for the retry-policy proofs). -/
theorem create_content_filter_request_ok (text : String) :
    ∃ cc, create_content_filter_request text = .ok cc := ⟨_, rfl⟩

/-- C6: `filter_content` makes at most two transport attempts: a transient
(`HttpError`) first outcome is retried exactly once and a successful retry
gives the same result as an immediately successful call; two consecutive
transient failures surface an error after exactly two attempts; a
`ClientError` or `DeserializeError` first outcome surfaces an error after a
single attempt, with no retry. -/
theorem filter_content_retry_policy :
    (∀ (text es : String) (render : Error → String)
        (tr tr2 : Nat → Except Error CreateCompletionResponse)
        (r : CreateCompletionResponse),
      tr 0 = .error (.HttpError es) → tr 1 = .ok r → tr2 0 = .ok r →
      (filter_content text render tr).1 = (filter_content text render tr2).1
      ∧ (filter_content text render tr).2 = 2
      ∧ (filter_content text render tr2).2 = 1)
    ∧ (∀ (text es es2 : String) (render : Error → String)
        (tr : Nat → Except Error CreateCompletionResponse),
      tr 0 = .error (.HttpError es) → tr 1 = .error (.HttpError es2) →
      ∃ msg, filter_content text render tr = (.error msg, 2))
    ∧ (∀ (text es : String) (status : Nat) (render : Error → String)
        (tr : Nat → Except Error CreateCompletionResponse),
      tr 0 = .error (.ClientError es status) →
      ∃ msg, filter_content text render tr = (.error msg, 1))
    ∧ (∀ (text es : String) (render : Error → String)
        (tr : Nat → Except Error CreateCompletionResponse),
      tr 0 = .error (.DeserializeError es) →
      ∃ msg, filter_content text render tr = (.error msg, 1))
    ∧ (∀ (text : String) (render : Error → String)
        (tr : Nat → Except Error CreateCompletionResponse),
      (filter_content text render tr).2 ≤ 2) := by
  refine ⟨?_, ?_, ?_, ?_, ?_⟩
  · intro text es render tr tr2 r h0 h1 h2
    obtain ⟨cc, hcc⟩ := create_content_filter_request_ok text
    simp [filter_content, hcc, h0, h1, h2]
  · intro text es es2 render tr h0 h1
    obtain ⟨cc, hcc⟩ := create_content_filter_request_ok text
    exact ⟨render (.HttpError es2), by simp [filter_content, hcc, h0, h1]⟩
  · intro text es status render tr h0
    obtain ⟨cc, hcc⟩ := create_content_filter_request_ok text
    exact ⟨"Error making content filter request: status " ++ toString status
      ++ " | error " ++ es, by simp [filter_content, hcc, h0]⟩
  · intro text es render tr h0
    obtain ⟨cc, hcc⟩ := create_content_filter_request_ok text
    exact ⟨"Error deserializing content filter response: " ++ es,
      by simp [filter_content, hcc, h0]⟩
  · intro text render tr
    unfold filter_content
    split
    · simp
    · split
      · simp
      · split <;> simp
      · simp
      · simp

end OpenAI
